import Mathlib

/-!
Verification of the Hamiltonian road generator's core against its
natural-language specification.

The repository's TypeScript layer is embedded shallowly: the orchestrator
(`packages/lib/src/async-api.ts`), the background worker handler
(`hamiltonian.worker`), the module-load memoization (`initWasm` in the
library index, `ensureInitialized` in the worker) and the hover handler of
`HamiltonianRoadGenerator.tsx` are translated to pure state-passing Lean
functions.  The Rust/WASM search engine and the `HoverQueueManager`
(`hover-queue.ts`) are not part of the repository's files; those two are
modelled from the specification's own description, as noted on each
definition.
-/

namespace HamiltonianRoad

/-- Integer cell coordinate, 0-indexed (`Point {row, col}` of the data model). -/
structure Point where
  row : Nat
  col : Nat
deriving DecidableEq, Repr

/-- Grid bounds (`GridSize {rows, cols}` of the data model). -/
structure GridSize where
  rows : Nat
  cols : Nat
deriving DecidableEq, Repr

/-- Modelled from the spec: the WASM `cell_parity` function is not in the
repository's files.  Parity is the checkerboard coloring `(row + col) mod 2`
(spec data model and glossary). -/
def getCellParity (row col : Nat) : Nat :=
  (row + col) % 2

/-- Modelled from the spec: the WASM `has_different_parity` function is not in
the repository's files.  True when the two points have different checkerboard
colors. -/
def hasDifferentParity (p1 p2 : Point) : Bool :=
  getCellParity p1.row p1.col != getCellParity p2.row p2.col

/-- The search result record (`PathResult` in `async-api.ts`). -/
structure PathResult where
  found : Bool
  path : List Point
  iterations : Nat
deriving DecidableEq, Repr

/-- A point is inside the grid. -/
def inBounds (g : GridSize) (p : Point) : Bool :=
  p.row < g.rows && p.col < g.cols

/-- Modelled from the spec (search engine step 1): a Hamiltonian path on an
even total cell count must connect cells of different parity; on an odd total
cell count it must connect cells of the same parity. -/
def parityCompatible (g : GridSize) (s e : Point) : Bool :=
  if (g.rows * g.cols) % 2 = 0 then hasDifferentParity s e
  else ! hasDifferentParity s e

/-- The 4-adjacent in-bounds neighbours of a cell.  The enumeration order
stands in for the tunable move-ordering heuristic: the spec's design notes fix
only the heuristic's qualitative role, never the order in which candidates are
ranked. -/
def neighborCells (g : GridSize) (p : Point) : List Point :=
  (if p.row + 1 < g.rows then [Point.mk (p.row + 1) p.col] else []) ++
  (if p.row ≠ 0 then [Point.mk (p.row - 1) p.col] else []) ++
  (if p.col + 1 < g.cols then [Point.mk p.row (p.col + 1)] else []) ++
  (if p.col ≠ 0 then [Point.mk p.row (p.col - 1)] else [])

/-- One backtracking round over the remaining candidate moves: try each
candidate with the supplied search continuation, return the first success,
threading the iteration count through failed branches. -/
def tryCandidates (search : List Point → Point → Nat → Option (List Point) × Nat) :
    List Point → List Point → Nat → Option (List Point) × Nat
  | [], _, iter => (none, iter)
  | n :: ns, pathRev, iter =>
    match search (n :: pathRev) n iter with
    | (some p, it) => (some p, it)
    | (none, it) => tryCandidates search ns pathRev it

/-- Modelled from the spec (search engine steps 2-7): the WASM
`find_hamiltonian_path` body is not in the repository's files.  Depth-first
backtracking over unvisited 4-neighbours; each node visit counts once toward
`iterations` and the search stops when the count reaches the budget.  `fuel`
bounds the recursion depth; the caller passes the total cell count, which the
path stack can never exceed, so it never cuts a search short.  The
move-ordering and connectivity-pruning heuristics, which the spec leaves
tunable and which only redirect search effort, are not modelled. -/
def searchGo (g : GridSize) (e : Point) (maxIter : Nat) :
    Nat → List Point → Point → Nat → Option (List Point) × Nat
  | 0 => fun _ _ iter => (none, iter)
  | fuel + 1 => fun pathRev cur iter =>
    if maxIter ≤ iter then (none, iter)
    else if cur = e ∧ pathRev.length = g.rows * g.cols then
      (some pathRev.reverse, iter + 1)
    else
      tryCandidates (searchGo g e maxIter fuel)
        ((neighborCells g cur).filter (fun n => ! pathRev.contains n))
        pathRev (iter + 1)

/-- Modelled from the spec (search engine contract): the exact parity
pre-check runs first and rejects with `found = false, iterations = 0` before
any search work; otherwise the backtracking search runs under the iteration
budget.  The caller-error path for out-of-bounds or equal endpoints is not
modelled (the spec reports it without defining a return value); every claim
about this function assumes valid input. -/
def findHamiltonianPath (s e : Point) (g : GridSize) (maxIterations : Nat) : PathResult :=
  if parityCompatible g s e then
    match searchGo g e maxIterations (g.rows * g.cols) [s] s 0 with
    | (some p, it) => { found := true, path := p, iterations := it }
    | (none, it) => { found := false, path := [], iterations := it }
  else { found := false, path := [], iterations := 0 }

/-- One rendered cell (`CellData` in `async-api.ts`): the set of connection
directions and the cell's 0-based position in the path. -/
structure CellData where
  connections : List String
  path_index : Nat
deriving DecidableEq, Repr

/-- The direction name of the connection from `a` toward the 4-adjacent cell
`b`, `none` when the cells are not 4-adjacent. -/
def directionBetween (a b : Point) : Option String :=
  if b.row = a.row + 1 ∧ b.col = a.col then some ("down")
  else if a.row = b.row + 1 ∧ b.col = a.col then some ("up")
  else if b.col = a.col + 1 ∧ b.row = a.row then some ("right")
  else if a.col = b.col + 1 ∧ b.row = a.row then some ("left")
  else none

/-- Modelled from the spec (path renderer): the WASM `path_to_road_grid` body
is not in the repository's files.  A populated cell carries connections toward
its path predecessor and successor and its 0-based offset in the path. -/
def renderCell (path : List Point) (p : Point) : Option CellData :=
  match path.findIdx? (fun q => q == p) with
  | none => none
  | some i =>
    let prevConn := if i = 0 then [] else
      match path.get? (i - 1) with
      | some q => (directionBetween p q).toList
      | none => []
    let nextConn :=
      match path.get? (i + 1) with
      | some q => (directionBetween p q).toList
      | none => []
    some { connections := prevConn ++ nextConn, path_index := i }

/-- Modelled from the spec (path renderer): one entry per grid cell, `none`
for cells absent from the path; an empty path yields an all-empty grid. -/
def pathToRoadGrid (path : List Point) (g : GridSize) : List (List (Option CellData)) :=
  (List.range g.rows).map (fun r => (List.range g.cols).map (fun c => renderCell path (Point.mk r c)))

/-- An operation request's payload, one shape per operation of the worker
protocol (`async-api.ts` and the worker's message handler). -/
inductive Payload where
  | findPathArgs (start finish : Point) (gridSize : GridSize) (maxIterations : Nat)
  | pathArgs (path : List Point) (gridSize : GridSize)
  | cellArgs (row col : Nat)
  | pairArgs (p1 p2 : Point)
deriving DecidableEq, Repr

/-- A response's payload: an operation's return value, or an error message. -/
inductive RespPayload where
  | pathResult (r : PathResult)
  | roadGrid (g : List (List (Option CellData)))
  | parity (n : Nat)
  | boolVal (b : Bool)
  | errMsg (s : String)
deriving DecidableEq, Repr

/-- `WorkerRequest` of `async-api.ts` / the worker: correlation id, operation
tag and payload.  The tag is a string because the worker's switch has a
default branch for unrecognized tags. -/
structure WorkerRequest where
  id : Nat
  type : String
  payload : Payload
deriving DecidableEq, Repr

/-- `WorkerResponse` of `async-api.ts` / the worker: correlation id, `result`
or `error` tag, payload. -/
structure WorkerResponse where
  id : Nat
  type : String
  payload : RespPayload
deriving DecidableEq, Repr

/-- The outcome of the external one-time module load. -/
inductive SetupOutcome where
  | success
  | failure
deriving DecidableEq, Repr

/-- The module-level memoization state shared by `initWasm` (library index)
and `ensureInitialized` (worker): the completed flag, the cached in-flight
promise (by id), how many times the underlying setup was actually started,
and the settled outcome of the setup promise, if it has settled. -/
structure InitState where
  initialized : Bool
  initPromise : Option Nat
  setupsStarted : Nat
  setupOutcome : Option SetupOutcome
deriving DecidableEq, Repr

/-- What a call to the one-time setup returns to its caller: an immediately
resolved value (fast path after completion), or a reference to the memoized
setup promise. -/
inductive InitCall where
  | done
  | promiseRef (p : Nat)
deriving DecidableEq, Repr

/-- `initWasm` of the library index: return at once when already initialized,
return the cached promise when one is in flight or settled, otherwise start
the setup exactly once and cache its promise. -/
def initWasm (st : InitState) : InitState × InitCall :=
  if st.initialized then (st, .done)
  else
    match st.initPromise with
    | some p => (st, .promiseRef p)
    | none =>
      ({ st with initPromise := some st.setupsStarted, setupsStarted := st.setupsStarted + 1 },
        .promiseRef st.setupsStarted)

/-- `ensureInitialized` of the worker: the same memoization shape over the
worker's own module state. -/
def ensureInitialized (st : InitState) : InitState × InitCall :=
  if st.initialized then (st, .done)
  else
    match st.initPromise with
    | some p => (st, .promiseRef p)
    | none =>
      ({ st with initPromise := some st.setupsStarted, setupsStarted := st.setupsStarted + 1 },
        .promiseRef st.setupsStarted)

/-- The setup promise settles: on success the memoizing `then`-continuation
sets the completed flag; on failure it never runs, so the flag stays false and
the rejected promise stays cached.  A promise settles at most once. -/
def settleInit (st : InitState) (o : SetupOutcome) : InitState :=
  match st.initPromise, st.setupOutcome with
  | some _, none =>
    { st with
      setupOutcome := some o
      initialized := st.initialized || (match o with | .success => true | .failure => false) }
  | _, _ => st

/-- An event on the shared init state: a caller invokes the memoized setup, or
the setup promise settles. -/
inductive InitOp where
  | call
  | settle (o : SetupOutcome)
deriving DecidableEq, Repr

/-- Run a sequence of init-state events (models any interleaving of callers
with the settling of the underlying load). -/
def runInitOps : InitState → List InitOp → InitState
  | st, [] => st
  | st, .call :: ops => runInitOps (initWasm st).1 ops
  | st, .settle o :: ops => runInitOps (settleInit st o) ops

/-- A fresh module: nothing loaded, no promise, no setup started. -/
def initFreshState : InitState :=
  { initialized := false, initPromise := none, setupsStarted := 0, setupOutcome := none }

/-- The module after its first `initWasm` call whose underlying load promise
rejected. -/
def failedInitState : InitState :=
  settleInit (initWasm initFreshState).1 .failure

/-- The worker's operation switch (`self.onmessage`): the four recognized tags
compute with the engine; any other tag throws `Unknown message type`, which
the surrounding catch turns into a single error response.  A recognized tag
whose payload does not have the operation's shape is destructured to undefined
fields in the source and fails inside the engine binding; that branch is
totalized here as an error. -/
def dispatch (type : String) (payload : Payload) : Except String RespPayload :=
  if type = ("findPath") then
    match payload with
    | .findPathArgs s f g m => .ok (.pathResult (findHamiltonianPath s f g m))
    | _ => .error ("malformed payload")
  else if type = ("pathToRoadGrid") then
    match payload with
    | .pathArgs p g => .ok (.roadGrid (pathToRoadGrid p g))
    | _ => .error ("malformed payload")
  else if type = ("getCellParity") then
    match payload with
    | .cellArgs r c => .ok (.parity (getCellParity r c))
    | _ => .error ("malformed payload")
  else if type = ("hasDifferentParity") then
    match payload with
    | .pairArgs p1 p2 => .ok (.boolVal (hasDifferentParity p1 p2))
    | _ => .error ("malformed payload")
  else .error ("Unknown message type: " ++ type)

/-- The worker's message handler (`self.onmessage`): await the memoized
one-time setup, run the operation switch, and post exactly one response
carrying the request's id — `result` on success, `error` when the setup
promise rejected or the switch threw.  `loadError` is the ambient outcome of
the underlying module load: `none` when the load succeeds, `some msg` when
the load promise rejects with `msg` (the memoized promise settles with that
outcome, so every awaiting request observes it). -/
def workerOnMessage (loadError : Option String) (st : InitState) (req : WorkerRequest) :
    InitState × WorkerResponse :=
  let st1 := (ensureInitialized st).1
  let st2 := settleInit st1 (if loadError.isSome then .failure else .success)
  match loadError with
  | some m => (st2, { id := req.id, type := "error", payload := .errMsg m })
  | none =>
    match dispatch req.type req.payload with
    | .ok v => (st2, { id := req.id, type := "result", payload := v })
    | .error msg => (st2, { id := req.id, type := "error", payload := .errMsg msg })

/-- The orchestrator's module state (`async-api.ts`): whether a worker
instance is installed (`worker !== null`), the monotonically increasing
message id counter, and the ids of the entries in the pending-request
table. -/
structure OrchestratorState where
  workerInstalled : Bool
  messageId : Nat
  pending : List Nat
deriving DecidableEq, Repr

/-- What `sendMessage` does to its caller's promise: immediate rejection with
a message, or a posted request whose pending entry awaits the response. -/
inductive SendOutcome where
  | rejected (msg : String)
  | posted (req : WorkerRequest)
deriving DecidableEq, Repr

/-- What the synchronous part of `initWorkerWithInstance` does: resolve at
once because a worker is already installed, or install the worker and post the
roundtrip test request whose response resolves the returned promise. -/
inductive InitWorkerOutcome where
  | resolvedImmediately
  | testPosted (req : WorkerRequest)
deriving DecidableEq, Repr

/-- A settlement performed on a pending entry's promise: the resolve or the
reject callback of the entry with this id was invoked. -/
inductive SettleEvent where
  | resolvedEntry (id : Nat)
  | rejectedEntry (id : Nat)
deriving DecidableEq, Repr

/-- `sendMessage` of `async-api.ts`: with no worker installed the returned
promise is rejected at once with the not-initialized error; otherwise a fresh
id is drawn, a pending entry recorded, and the request posted. -/
def sendMessage (st : OrchestratorState) (type : String) (payload : Payload) :
    OrchestratorState × SendOutcome :=
  if st.workerInstalled then
    ({ st with messageId := st.messageId + 1, pending := st.pending ++ [st.messageId] },
      .posted { id := st.messageId, type := type, payload := payload })
  else
    (st, .rejected ("Worker not initialized. Call initWorker() first."))

/-- The synchronous part of `initWorkerWithInstance` of `async-api.ts`: when a
worker is already installed the promise resolves at once; otherwise the
instance is installed, a pending entry for the roundtrip test request is
recorded, and the test request (`getCellParity` of cell (0,0)) is posted — the
returned promise resolves only when that response arrives. -/
def initWorkerWithInstance (st : OrchestratorState) : OrchestratorState × InitWorkerOutcome :=
  if st.workerInstalled then (st, .resolvedImmediately)
  else
    ({ workerInstalled := true, messageId := st.messageId + 1,
       pending := st.pending ++ [st.messageId] },
      .testPosted { id := st.messageId, type := "getCellParity", payload := .cellArgs 0 0 })

/-- `terminateWorker` of `async-api.ts`: when a worker is installed it is
terminated, the instance dropped and the pending table cleared.  The returned
list records every settlement the call performs on pending entries — the body
invokes no resolve or reject callback, so it is always empty. -/
def terminateWorker (st : OrchestratorState) : OrchestratorState × List SettleEvent :=
  if st.workerInstalled then
    ({ workerInstalled := false, messageId := st.messageId, pending := [] }, [])
  else (st, [])

/-- The orchestrator's `worker.onmessage` handler: a response whose id matches
a pending entry removes the entry and settles its promise — reject on an
`error` response, resolve otherwise; a response with no matching entry is
dropped without touching any state. -/
def onWorkerMessage (st : OrchestratorState) (resp : WorkerResponse) :
    OrchestratorState × Option SettleEvent :=
  if st.pending.contains resp.id then
    ({ st with pending := st.pending.filter (fun i => i != resp.id) },
      some (if resp.type = ("error") then .rejectedEntry resp.id else .resolvedEntry resp.id))
  else (st, none)

/-- `findHamiltonianPathAsync` of `async-api.ts`: a `findPath` request whose
iteration budget defaults to 500000 when the caller supplies none. -/
def findHamiltonianPathAsync (st : OrchestratorState) (start finish : Point)
    (gridSize : GridSize) (maxIterations : Option Nat) : OrchestratorState × SendOutcome :=
  sendMessage st ("findPath")
    (.findPathArgs start finish gridSize (maxIterations.getD 500000))

/-- `calculateMaxIterations` of `HamiltonianRoadGenerator.tsx`: the iteration
budget sized to the grid's total cell count. -/
def calculateMaxIterations (gridSize : GridSize) : Nat :=
  if gridSize.rows * gridSize.cols ≤ 100 then 500000
  else if gridSize.rows * gridSize.cols ≤ 400 then 2000000
  else if gridSize.rows * gridSize.cols ≤ 1000 then 5000000
  else 10000000

/-- JS `Map.set` over the hover path cache (string key, path value). -/
def mapSet : List (String × List Point) → String → List Point → List (String × List Point)
  | [], k, v => [(k, v)]
  | e :: es, k, v => if e.1 = k then (k, v) :: es else e :: mapSet es k v

/-- JS `Map.get` over the hover path cache. -/
def mapGet : List (String × List Point) → String → Option (List Point)
  | [], _ => none
  | e :: es, k => if e.1 = k then some e.2 else mapGet es k

/-- The hover cache key of `handleCellHover`:
`start.row,start.col-row,col`. -/
def cacheKeyOf (s t : Point) : String :=
  toString s.row ++ "," ++ toString s.col ++ "-" ++ toString t.row ++ "," ++ toString t.col

/-- The slice of the component state that the hover result callback reads and
writes: the currently hovered cell, the displayed preview path, and the
busy flag. -/
structure HoverView where
  hoverPoint : Option Point
  previewPath : List Point
  isCalculating : Bool
deriving DecidableEq, Repr

/-- The tail of `handleCellHover`'s debounce callback (the code run when the
search result for hover target `target` arrives): the result is always stored
in the path cache under the request's key; the state update then re-validates
the hovered cell — when it still equals the request's target the preview is
updated with the result, otherwise only the busy flag is cleared. -/
def applyHoverResult (cache : List (String × List Point)) (st : HoverView)
    (startPoint target : Point) (resultPath : List Point) :
    List (String × List Point) × HoverView :=
  let cache2 := mapSet cache (cacheKeyOf startPoint target) resultPath
  if st.hoverPoint = some target then
    (cache2, { st with previewPath := resultPath, isCalculating := false })
  else
    (cache2, { st with isCalculating := false })

/-- Modelled from the spec: the per-cell state of the Hover Preview
Controller's state machine (`hover-queue.ts` is not in the repository's
files). -/
inductive CellStatus where
  | idle
  | pending
  | processing
  | found
  | notFound
  | start
  | goal
deriving DecidableEq, Repr

/-- A terminal exploration outcome: `found` or `notFound`. -/
def isTerminal (s : CellStatus) : Bool :=
  s == .found || s == .notFound

/-- Modelled from the spec: the `HoverQueueManager` state (`hover-queue.ts` is
not in the repository's files, only its tests) — the per-cell status grid and
the aggregate request counters.  The processing-duration metric, which depends
on wall-clock time, is not modelled. -/
structure HQMState where
  rows : Nat
  cols : Nat
  cells : List (List CellStatus)
  totalRequests : Nat
  cacheHits : Nat
deriving DecidableEq, Repr

/-- The status of cell `(r, c)`, `none` outside the grid. -/
def getCellStatus (st : HQMState) (r c : Nat) : Option CellStatus :=
  (st.cells.get? r).bind (fun row => row.get? c)

/-- Overwrite the status of cell `(r, c)` (no effect outside the grid). -/
def setCellStatus (st : HQMState) (r c : Nat) (s : CellStatus) : HQMState :=
  { st with cells := st.cells.set r ((st.cells.getD r []).set c s) }

/-- Modelled from the spec: `setGridSize` replaces the grid with an all-idle
one of the new size and resets the per-cell state wholesale. -/
def setGridSize (_st : HQMState) (r c : Nat) : HQMState :=
  { rows := r, cols := c, cells := List.replicate r (List.replicate c CellStatus.idle),
    totalRequests := 0, cacheHits := 0 }

/-- A manager before any `setGridSize`. -/
def hqmInitState : HQMState :=
  { rows := 0, cols := 0, cells := [], totalRequests := 0, cacheHits := 0 }

/-- Modelled from the spec: `reset` returns every cell to idle and clears the
counters. -/
def hqmReset (st : HQMState) : HQMState :=
  setGridSize st st.rows st.cols

/-- Modelled from the spec: `markPending` counts the request even when the
cell was already explored, and moves the cell to `pending` unless its status
is terminal; out-of-bounds cells are silent no-ops. -/
def markPending (st : HQMState) (r c : Nat) : HQMState :=
  match getCellStatus st r c with
  | none => st
  | some cur =>
    let st1 := { st with totalRequests := st.totalRequests + 1 }
    if isTerminal cur then st1 else setCellStatus st1 r c .pending

/-- Modelled from the spec: `markProcessing` fires only on the
`pending → processing` transition; elsewhere (terminal states included) it is
a no-op, as is any out-of-bounds call. -/
def markProcessing (st : HQMState) (r c : Nat) : HQMState :=
  match getCellStatus st r c with
  | none => st
  | some cur => if cur = .pending then setCellStatus st r c .processing else st

/-- Modelled from the spec: `markCompleted` records the terminal outcome of a
`pending` or `processing` cell; a cell already in a terminal state keeps its
status, and out-of-bounds calls are no-ops. -/
def markCompleted (st : HQMState) (r c : Nat) (fnd : Bool) : HQMState :=
  match getCellStatus st r c with
  | none => st
  | some cur =>
    if cur = .pending ∨ cur = .processing then
      setCellStatus st r c (if fnd then .found else .notFound)
    else st

/-- Modelled from the spec: `markCached` counts a request and a cache hit and
records the outcome as if completed, but must not overwrite a cell already in
a terminal state; out-of-bounds calls are no-ops. -/
def markCached (st : HQMState) (r c : Nat) (fnd : Bool) : HQMState :=
  match getCellStatus st r c with
  | none => st
  | some cur =>
    let st1 := { st with totalRequests := st.totalRequests + 1, cacheHits := st.cacheHits + 1 }
    if isTerminal cur then st1 else setCellStatus st1 r c (if fnd then .found else .notFound)

/-- Modelled from the spec: `markIdle` is the cancellation transition, allowed
only from `pending` or `processing`; terminal cells reject it, and
out-of-bounds calls are no-ops. -/
def markIdle (st : HQMState) (r c : Nat) : HQMState :=
  match getCellStatus st r c with
  | none => st
  | some cur =>
    if cur = .pending ∨ cur = .processing then setCellStatus st r c .idle else st

/-- Modelled from the spec: `markStart` is an explicit caller marker that
overwrites any status, explored cells included; out-of-bounds calls are
no-ops. -/
def markStart (st : HQMState) (r c : Nat) : HQMState :=
  match getCellStatus st r c with
  | none => st
  | some _ => setCellStatus st r c .start

/-- Modelled from the spec: `markGoal` is an explicit caller marker that
overwrites any status, explored cells included; out-of-bounds calls are
no-ops. -/
def markGoal (st : HQMState) (r c : Nat) : HQMState :=
  match getCellStatus st r c with
  | none => st
  | some _ => setCellStatus st r c .goal

/-! Helper lemmas. -/

theorem list_get?_set_self {α : Type} :
    ∀ (l : List α) (i : Nat) (a b : α), l.get? i = some a → (l.set i b).get? i = some b := by
  intro l
  induction l with
  | nil => intro i a b h; simp [List.get?] at h
  | cons x xs ih =>
    intro i a b h
    cases i with
    | zero => rfl
    | succ n =>
      simp only [List.set, List.get?] at h ⊢
      exact ih n a b h

theorem list_getD_of_get? {α : Type} :
    ∀ (l : List α) (i : Nat) (d a : α), l.get? i = some a → l.getD i d = a := by
  intro l
  induction l with
  | nil => intro i d a h; simp [List.get?] at h
  | cons x xs ih =>
    intro i d a h
    cases i with
    | zero => simp [List.get?] at h; simp [List.getD, h]
    | succ n =>
      simp only [List.get?] at h
      simpa [List.getD] using ih n d a h

theorem mapGet_mapSet_self :
    ∀ (m : List (String × List Point)) (k : String) (v : List Point),
      mapGet (mapSet m k v) k = some v := by
  intro m k v
  induction m with
  | nil => simp [mapSet, mapGet]
  | cons e es ih =>
    by_cases h : e.1 = k
    · simp [mapSet, mapGet, h]
    · simp [mapSet, mapGet, h, ih]

theorem getCellStatus_setCellStatus_self (st : HQMState) (r c : Nat) (s cur : CellStatus)
    (h : getCellStatus st r c = some cur) :
    getCellStatus (setCellStatus st r c s) r c = some s := by
  unfold getCellStatus at h ⊢
  rcases Option.bind_eq_some.mp h with ⟨row, hr, hc⟩
  unfold setCellStatus
  have hgd : st.cells.getD r [] = row := list_getD_of_get? st.cells r [] row hr
  rw [hgd]
  have h1 : (st.cells.set r (row.set c s)).get? r = some (row.set c s) :=
    list_get?_set_self st.cells r row (row.set c s) hr
  simp only [h1, Option.bind_some]
  exact list_get?_set_self row c cur s hc

/-! The claims. -/

/-- C1, corrected: for every grid size and every in-bounds, distinct
start/end pair whose parities are incompatible with a Hamiltonian path (same
parity when rows×cols is even, different parity when rows×cols is odd), the
search returns `found = false` with `iterations = 0`, performing no search;
the concrete even-grid scenario is the pair (0,0) → (1,1) on the 2×2 grid
(same parity), rejected with `found = false, iterations = 0` for every
budget. -/
theorem c1_parity_rejection :
    (∀ (g : GridSize) (s e : Point) (m : Nat),
      inBounds g s = true → inBounds g e = true → s ≠ e →
      (((g.rows * g.cols) % 2 = 0 ∧ getCellParity s.row s.col = getCellParity e.row e.col) ∨
        ((g.rows * g.cols) % 2 = 1 ∧ getCellParity s.row s.col ≠ getCellParity e.row e.col)) →
      findHamiltonianPath s e g m = { found := false, path := [], iterations := 0 }) ∧
    (∀ m : Nat,
      findHamiltonianPath (Point.mk 0 0) (Point.mk 1 1) (GridSize.mk 2 2) m =
        { found := false, path := [], iterations := 0 }) := by
  constructor
  · intro g s e m _ _ _ h
    have hpc : parityCompatible g s e = false := by
      rcases h with ⟨h0, hp⟩ | ⟨h1, hp⟩
      · simp [parityCompatible, hasDifferentParity, h0, hp]
      · simp [parityCompatible, hasDifferentParity, h1, hp]
    simp [findHamiltonianPath, hpc]
  · intro m
    rfl

/-- C1 witness: the theorem applied to the 2×2 grid with the same-parity pair
(0,0) → (1,1), whose hypotheses hold by computation. -/
theorem c1_witness :
    inBounds (GridSize.mk 2 2) (Point.mk 0 0) = true ∧
    inBounds (GridSize.mk 2 2) (Point.mk 1 1) = true ∧
    Point.mk 0 0 ≠ Point.mk 1 1 ∧
    findHamiltonianPath (Point.mk 0 0) (Point.mk 1 1) (GridSize.mk 2 2) 500000 =
      { found := false, path := [], iterations := 0 } :=
  ⟨by decide, by decide, by decide,
    c1_parity_rejection.1 (GridSize.mk 2 2) (Point.mk 0 0) (Point.mk 1 1) 500000
      (by decide) (by decide) (by decide) (Or.inl ⟨by decide, by decide⟩)⟩

/-- C1 counterexample: the claim's concrete scenario is mislabeled — on the
2×2 grid the pair (0,0) → (0,1) has different parity, which is compatible on
an even grid, and the engine finds the Hamiltonian path
(0,0) (1,0) (1,1) (0,1), so the result is `found = true` with nonzero
iterations rather than `found = false, iterations = 0`. -/
theorem c1_counterexample :
    (findHamiltonianPath (Point.mk 0 0) (Point.mk 0 1) (GridSize.mk 2 2) 500000).found = true ∧
    (findHamiltonianPath (Point.mk 0 0) (Point.mk 0 1) (GridSize.mk 2 2) 500000).iterations ≠ 0 := by
  constructor
  · decide
  · decide

/-- C2, corrected: a request issued while no worker instance is installed
(before `initWorkerWithInstance` is first called, or after `terminateWorker`)
is rejected at once with the explicit not-initialized error and is not
queued — the orchestrator state, the pending table included, is left
untouched. -/
theorem c2_uninstalled_fails_fast :
    ∀ (st : OrchestratorState) (ty : String) (p : Payload),
      st.workerInstalled = false →
      sendMessage st ty p =
        (st, .rejected ("Worker not initialized. Call initWorker() first.")) := by
  intro st ty p h
  simp [sendMessage, h]

/-- C2 witness: the theorem applied to the fresh orchestrator state. -/
theorem c2_witness :
    sendMessage { workerInstalled := false, messageId := 0, pending := [] }
        ("findPath") (.cellArgs 0 0) =
      ({ workerInstalled := false, messageId := 0, pending := [] },
        .rejected ("Worker not initialized. Call initWorker() first.")) :=
  c2_uninstalled_fails_fast _ _ _ rfl

/-- C2 counterexample: `initWorkerWithInstance` installs the worker instance
synchronously, before its setup roundtrip completes (the test entry, id 0, is
still pending); a request issued in that window is assigned id 1, queued in
the pending table and posted — not rejected with a not-initialized error —
refuting the claim that every request issued before setup completion fails
fast. -/
theorem c2_counterexample :
    (initWorkerWithInstance
        { workerInstalled := false, messageId := 0, pending := [] }).1.pending = [0] ∧
    (sendMessage
        (initWorkerWithInstance
          { workerInstalled := false, messageId := 0, pending := [] }).1
        ("findPath") (.cellArgs 0 0)).2 =
      .posted { id := 1, type := "findPath", payload := .cellArgs 0 0 } ∧
    (sendMessage
        (initWorkerWithInstance
          { workerInstalled := false, messageId := 0, pending := [] }).1
        ("findPath") (.cellArgs 0 0)).1.pending = [0, 1] :=
  ⟨rfl, rfl, rfl⟩

/-- C3, corrected: shutting down with a worker installed terminates the
background context and removes every entry from the pending table, leaving it
empty — but it performs no settlement on the removed entries: the returned
settlement record is empty, so the dropped promises are never rejected. -/
theorem c3_terminate_clears_without_reject :
    ∀ st : OrchestratorState, st.workerInstalled = true →
      terminateWorker st =
        ({ workerInstalled := false, messageId := st.messageId, pending := [] },
          ([] : List SettleEvent)) := by
  intro st h
  simp [terminateWorker, h]

/-- C3 witness: the theorem applied to an orchestrator with two pending
entries. -/
theorem c3_witness :
    terminateWorker { workerInstalled := true, messageId := 2, pending := [0, 1] } =
      ({ workerInstalled := false, messageId := 2, pending := [] }, []) :=
  c3_terminate_clears_without_reject _ rfl

/-- C3 counterexample: entry 0 is pending when `terminateWorker` runs; the
call empties the table yet performs no settlement at all (the settlement
record is `[]`), so entry 0's promise is removed without being rejected and
its awaiting caller never settles — refuting the claim that every pending
entry is rejected. -/
theorem c3_counterexample :
    0 ∈ ({ workerInstalled := true, messageId := 2, pending := [0, 1] } :
        OrchestratorState).pending ∧
    (terminateWorker
        { workerInstalled := true, messageId := 2, pending := [0, 1] }).1.pending = [] ∧
    (terminateWorker
        { workerInstalled := true, messageId := 2, pending := [0, 1] }).2 = [] :=
  ⟨by decide, rfl, rfl⟩

/-- C4, confirmed: a response whose id matches a pending entry settles that
entry exactly once — rejected on an `error` response, resolved otherwise —
and removes it, leaving every other entry's membership unchanged; handling
the same response again settles nothing.  A response whose id matches no
pending entry is dropped with the whole state unchanged and no settlement
performed. -/
theorem c4_response_settling :
    (∀ (st : OrchestratorState) (resp : WorkerResponse),
      resp.id ∈ st.pending →
      onWorkerMessage st resp =
        ({ st with pending := st.pending.filter (fun i => i != resp.id) },
          some (if resp.type = ("error") then .rejectedEntry resp.id
            else .resolvedEntry resp.id)) ∧
      resp.id ∉ (onWorkerMessage st resp).1.pending ∧
      (∀ j, j ≠ resp.id →
        (j ∈ (onWorkerMessage st resp).1.pending ↔ j ∈ st.pending)) ∧
      (onWorkerMessage (onWorkerMessage st resp).1 resp).2 = none) ∧
    (∀ (st : OrchestratorState) (resp : WorkerResponse),
      resp.id ∉ st.pending → onWorkerMessage st resp = (st, none)) := by
  constructor
  · intro st resp h
    refine ⟨by simp [onWorkerMessage, h], ?_, ?_, ?_⟩
    · simp [onWorkerMessage, h, List.mem_filter]
    · intro j hj
      simp [onWorkerMessage, h, List.mem_filter, hj]
    · simp [onWorkerMessage, h, List.mem_filter]
  · intro st resp h
    simp [onWorkerMessage, h]

/-- C4 witness: the theorem's matched and unmatched branches applied to an
orchestrator with pending entries 3 and 5. -/
theorem c4_witness :
    onWorkerMessage { workerInstalled := true, messageId := 6, pending := [3, 5] }
        { id := 3, type := "error", payload := .errMsg ("boom") } =
      ({ workerInstalled := true, messageId := 6, pending := [5] },
        some (.rejectedEntry 3)) ∧
    onWorkerMessage { workerInstalled := true, messageId := 6, pending := [3, 5] }
        { id := 9, type := "result", payload := .parity 0 } =
      ({ workerInstalled := true, messageId := 6, pending := [3, 5] }, none) := by
  constructor
  · have h := (c4_response_settling.1
      { workerInstalled := true, messageId := 6, pending := [3, 5] }
      { id := 3, type := "error", payload := .errMsg ("boom") } (by decide)).1
    simpa using h
  · exact c4_response_settling.2
      { workerInstalled := true, messageId := 6, pending := [3, 5] }
      { id := 9, type := "result", payload := .parity 0 } (by decide)

/-- The memoization invariant of the one-time setup: while no promise is
cached no setup has started, and overall at most one setup is ever started. -/
def memoInv (st : InitState) : Prop :=
  (st.initPromise = none → st.setupsStarted = 0) ∧ st.setupsStarted ≤ 1

theorem memoInv_initWasm (st : InitState) (h : memoInv st) : memoInv (initWasm st).1 := by
  obtain ⟨h1, h2⟩ := h
  by_cases hi : st.initialized
  · simpa [initWasm, hi] using ⟨h1, h2⟩
  · cases hp : st.initPromise with
    | some p => simpa [initWasm, hi, hp] using ⟨h1, h2⟩
    | none =>
      have h0 := h1 hp
      simp [initWasm, hi, hp, memoInv]
      omega

theorem settleInit_preserves (st : InitState) (o : SetupOutcome) :
    (settleInit st o).initPromise = st.initPromise ∧
    (settleInit st o).setupsStarted = st.setupsStarted := by
  obtain ⟨i, p, s, so⟩ := st
  cases p <;> cases so <;> exact ⟨rfl, rfl⟩

theorem memoInv_settleInit (st : InitState) (o : SetupOutcome) (h : memoInv st) :
    memoInv (settleInit st o) := by
  obtain ⟨hp, hs⟩ := settleInit_preserves st o
  unfold memoInv
  rw [hp, hs]
  exact h

theorem runInitOps_memoInv :
    ∀ (ops : List InitOp) (st : InitState), memoInv st → memoInv (runInitOps st ops) := by
  intro ops
  induction ops with
  | nil => intro st h; simpa [runInitOps] using h
  | cons op rest ih =>
    intro st h
    cases op with
    | call => exact ih _ (memoInv_initWasm st h)
    | settle o => exact ih _ (memoInv_settleInit st o h)

/-- C5, confirmed: across any interleaving of setup calls and promise
settlements from a fresh module, the underlying setup is started at most
once; a call made while a promise is in flight (or settled) returns exactly
that cached promise without touching the state; a call after completion
returns at once without re-running setup — for `initWasm` and for the
worker's `ensureInitialized` alike — and `initWorkerWithInstance` resolves
immediately when a worker is already installed. -/
theorem c5_init_memoized :
    (∀ ops : List InitOp, (runInitOps initFreshState ops).setupsStarted ≤ 1) ∧
    (∀ (st : InitState) (p : Nat),
      st.initialized = false → st.initPromise = some p →
      initWasm st = (st, .promiseRef p)) ∧
    (∀ st : InitState, st.initialized = true → initWasm st = (st, .done)) ∧
    (∀ (st : InitState) (p : Nat),
      st.initialized = false → st.initPromise = some p →
      ensureInitialized st = (st, .promiseRef p)) ∧
    (∀ st : InitState, st.initialized = true → ensureInitialized st = (st, .done)) ∧
    (∀ st : OrchestratorState, st.workerInstalled = true →
      initWorkerWithInstance st = (st, .resolvedImmediately)) := by
  refine ⟨?_, ?_, ?_, ?_, ?_, ?_⟩
  · intro ops
    exact (runInitOps_memoInv ops initFreshState ⟨fun _ => rfl, by simp [initFreshState]⟩).2
  · intro st p h1 h2; simp [initWasm, h1, h2]
  · intro st h; simp [initWasm, h]
  · intro st p h1 h2; simp [ensureInitialized, h1, h2]
  · intro st h; simp [ensureInitialized, h]
  · intro st h; simp [initWorkerWithInstance, h]

/-- C5 witness: the theorem's sharing, fast-path and installed-worker branches
applied at concrete states. -/
theorem c5_witness :
    initWasm (InitState.mk false (some 0) 1 none) =
      (InitState.mk false (some 0) 1 none, .promiseRef 0) ∧
    initWasm (InitState.mk true (some 0) 1 (some SetupOutcome.success)) =
      (InitState.mk true (some 0) 1 (some SetupOutcome.success), .done) ∧
    ensureInitialized (InitState.mk false (some 0) 1 none) =
      (InitState.mk false (some 0) 1 none, .promiseRef 0) ∧
    ensureInitialized (InitState.mk true (some 0) 1 (some SetupOutcome.success)) =
      (InitState.mk true (some 0) 1 (some SetupOutcome.success), .done) ∧
    initWorkerWithInstance { workerInstalled := true, messageId := 3, pending := [7] } =
      ({ workerInstalled := true, messageId := 3, pending := [7] }, .resolvedImmediately) :=
  ⟨c5_init_memoized.2.1 _ 0 rfl rfl,
    c5_init_memoized.2.2.1 _ rfl,
    c5_init_memoized.2.2.2.1 _ 0 rfl rfl,
    c5_init_memoized.2.2.2.2.1 _ rfl,
    c5_init_memoized.2.2.2.2.2 _ rfl⟩

/-- C6, confirmed: a request whose operation tag is none of the four
recognized operations produces exactly one `error` response carrying the
request's own id (the handler is a total function, so the background context
does not crash), and handling it first changes no other request's response. -/
theorem c6_unknown_operation :
    ∀ (st : InitState) (req : WorkerRequest),
      ¬(req.type = "findPath" ∨ req.type = "pathToRoadGrid" ∨
        req.type = "getCellParity" ∨ req.type = "hasDifferentParity") →
      (workerOnMessage none st req).2 =
        { id := req.id, type := "error",
          payload := .errMsg ("Unknown message type: " ++ req.type) } ∧
      (∀ req2 : WorkerRequest,
        (workerOnMessage none (workerOnMessage none st req).1 req2).2 =
          (workerOnMessage none st req2).2) := by
  intro st req h
  push_neg at h
  obtain ⟨h1, h2, h3, h4⟩ := h
  constructor
  · simp [workerOnMessage, dispatch, h1, h2, h3, h4]
  · intro req2
    cases hd : dispatch req2.type req2.payload <;> simp [workerOnMessage, hd]

/-- C6 witness: the theorem applied to a request with the unrecognized tag
`bogus` on the fresh worker state. -/
theorem c6_witness :
    (workerOnMessage none initFreshState
        { id := 5, type := "bogus", payload := .cellArgs 0 0 }).2 =
      { id := 5, type := "error",
        payload := .errMsg ("Unknown message type: " ++ "bogus") } :=
  (c6_unknown_operation initFreshState
    { id := 5, type := "bogus", payload := .cellArgs 0 0 } (by decide)).1

theorem runInitOps_failed_fixed :
    ∀ ops : List InitOp, runInitOps failedInitState ops = failedInitState := by
  intro ops
  induction ops with
  | nil => rfl
  | cons op rest ih =>
    cases op with
    | call =>
      have h1 : (initWasm failedInitState).1 = failedInitState := rfl
      simpa [runInitOps, h1] using ih
    | settle o =>
      have h1 : settleInit failedInitState o = failedInitState := rfl
      simpa [runInitOps, h1] using ih

/-- C10, confirmed: once the first setup attempt's promise has rejected, the
module state is a fixed point of every further event — the completed flag
stays false forever and no second setup is ever started; every later
`initWasm` or `ensureInitialized` call returns the very same cached rejected
promise (id 0) without changing the state; and with the module load failing
with message `m`, every worker request is answered by a single `error`
response carrying that same setup error. -/
theorem c10_failed_setup_permanent :
    (∀ ops : List InitOp, runInitOps failedInitState ops = failedInitState) ∧
    (∀ ops : List InitOp, (runInitOps failedInitState ops).initialized = false) ∧
    (∀ ops : List InitOp, (runInitOps failedInitState ops).setupsStarted = 1) ∧
    (∀ ops : List InitOp,
      initWasm (runInitOps failedInitState ops) = (failedInitState, .promiseRef 0)) ∧
    (∀ ops : List InitOp,
      ensureInitialized (runInitOps failedInitState ops) = (failedInitState, .promiseRef 0)) ∧
    (∀ (st : InitState) (req : WorkerRequest) (m : String),
      (workerOnMessage (some m) st req).2 =
        { id := req.id, type := "error", payload := .errMsg m }) := by
  refine ⟨runInitOps_failed_fixed, ?_, ?_, ?_, ?_, ?_⟩
  · intro ops; rw [runInitOps_failed_fixed ops]; rfl
  · intro ops; rw [runInitOps_failed_fixed ops]; rfl
  · intro ops; rw [runInitOps_failed_fixed ops]; rfl
  · intro ops; rw [runInitOps_failed_fixed ops]; rfl
  · intro st req m; rfl

/-- C7, confirmed: once a cell of the hover controller is in a terminal state
(`found` or `notFound`), the transitions `markIdle`, `markPending`,
`markProcessing`, `markCompleted` and `markCached` leave its status unchanged;
only a full reset, a grid-size change, or an explicit `markStart`/`markGoal`
override replaces it.  In particular the sequence
`markPending(0,0); markCompleted(0,0,true); markIdle(0,0)` leaves cell (0,0)
in `found`. -/
theorem c7_terminal_states :
    (∀ (st : HQMState) (r c : Nat),
      (getCellStatus st r c = some .found ∨ getCellStatus st r c = some .notFound) →
      getCellStatus (markIdle st r c) r c = getCellStatus st r c ∧
      getCellStatus (markPending st r c) r c = getCellStatus st r c ∧
      getCellStatus (markProcessing st r c) r c = getCellStatus st r c ∧
      (∀ b : Bool, getCellStatus (markCompleted st r c b) r c = getCellStatus st r c) ∧
      (∀ b : Bool, getCellStatus (markCached st r c b) r c = getCellStatus st r c) ∧
      (r < st.rows → c < st.cols → getCellStatus (hqmReset st) r c = some .idle) ∧
      (∀ r2 c2 : Nat, r < r2 → c < c2 →
        getCellStatus (setGridSize st r2 c2) r c = some .idle) ∧
      getCellStatus (markStart st r c) r c = some .start ∧
      getCellStatus (markGoal st r c) r c = some .goal) ∧
    getCellStatus
      (markIdle (markCompleted (markPending (setGridSize hqmInitState 10 10) 0 0) 0 0 true) 0 0)
      0 0 = some .found := by
  constructor
  · intro st r c h
    have hrepl : ∀ r2 c2 : Nat, r < r2 → c < c2 →
        getCellStatus (setGridSize st r2 c2) r c = some CellStatus.idle := by
      intro r2 c2 hr hc
      simp [setGridSize, getCellStatus, List.getElem?_replicate, hr, hc]
    rcases h with h | h
    · refine ⟨?_, ?_, ?_, ?_, ?_, ?_, hrepl, ?_, ?_⟩
      · simp [markIdle, h]
      · unfold markPending
        rw [h]
        simpa [isTerminal, getCellStatus] using h
      · simp [markProcessing, h]
      · intro b; simp [markCompleted, h]
      · intro b
        unfold markCached
        rw [h]
        simpa [isTerminal, getCellStatus] using h
      · intro hr hc
        exact hrepl st.rows st.cols hr hc
      · have hset := getCellStatus_setCellStatus_self st r c .start _ h
        simp [markStart, h, hset]
      · have hset := getCellStatus_setCellStatus_self st r c .goal _ h
        simp [markGoal, h, hset]
    · refine ⟨?_, ?_, ?_, ?_, ?_, ?_, hrepl, ?_, ?_⟩
      · simp [markIdle, h]
      · unfold markPending
        rw [h]
        simpa [isTerminal, getCellStatus] using h
      · simp [markProcessing, h]
      · intro b; simp [markCompleted, h]
      · intro b
        unfold markCached
        rw [h]
        simpa [isTerminal, getCellStatus] using h
      · intro hr hc
        exact hrepl st.rows st.cols hr hc
      · have hset := getCellStatus_setCellStatus_self st r c .start _ h
        simp [markStart, h, hset]
      · have hset := getCellStatus_setCellStatus_self st r c .goal _ h
        simp [markGoal, h, hset]
  · decide

/-- C7 witness: the theorem applied to a 3×3 manager whose cell (0,0) has
reached `found`, showing `markIdle` leaves the terminal status in place. -/
theorem c7_witness :
    getCellStatus
        (markIdle (markCompleted (markPending (setGridSize hqmInitState 3 3) 0 0) 0 0 true) 0 0)
        0 0 =
      getCellStatus (markCompleted (markPending (setGridSize hqmInitState 3 3) 0 0) 0 0 true)
        0 0 :=
  (c7_terminal_states.1 (markCompleted (markPending (setGridSize hqmInitState 3 3) 0 0) 0 0 true)
    0 0 (Or.inl (by decide))).1

/-- C8, confirmed: when a hover search result arrives it is always stored in
the path cache under the (start, end) key of the request; the displayed
preview is updated with it exactly when the currently hovered target still
equals the target the request was issued for, and is left unchanged
otherwise. -/
theorem c8_stale_suppression :
    ∀ (cache : List (String × List Point)) (st : HoverView) (s t : Point)
      (res : List Point),
      mapGet (applyHoverResult cache st s t res).1 (cacheKeyOf s t) = some res ∧
      (st.hoverPoint ≠ some t →
        (applyHoverResult cache st s t res).2.previewPath = st.previewPath) ∧
      (st.hoverPoint = some t →
        (applyHoverResult cache st s t res).2.previewPath = res) := by
  intro cache st s t res
  refine ⟨?_, ?_, ?_⟩
  · by_cases h : st.hoverPoint = some t <;>
      simp [applyHoverResult, h, mapGet_mapSet_self]
  · intro h; simp [applyHoverResult, h]
  · intro h; simp [applyHoverResult, h]

/-- C8 witness: a stale arrival — the hover moved to (1,1) while the request
was for (2,2) — caches the result yet leaves the preview unchanged. -/
theorem c8_witness :
    mapGet
        (applyHoverResult [] (HoverView.mk (some (Point.mk 1 1)) [] true)
          (Point.mk 0 0) (Point.mk 2 2) [Point.mk 0 0]).1
        (cacheKeyOf (Point.mk 0 0) (Point.mk 2 2)) = some [Point.mk 0 0] ∧
    (applyHoverResult [] (HoverView.mk (some (Point.mk 1 1)) [] true)
        (Point.mk 0 0) (Point.mk 2 2) [Point.mk 0 0]).2.previewPath = [] :=
  ⟨(c8_stale_suppression [] (HoverView.mk (some (Point.mk 1 1)) [] true)
      (Point.mk 0 0) (Point.mk 2 2) [Point.mk 0 0]).1,
    (c8_stale_suppression [] (HoverView.mk (some (Point.mk 1 1)) [] true)
      (Point.mk 0 0) (Point.mk 2 2) [Point.mk 0 0]).2.1 (by decide)⟩

/-- C9, confirmed: the grid-sized iteration budget equals 500000 on every
grid of at most 100 cells, never exceeds 10^7, and is monotone non-decreasing
in the total cell count; the library default used when the caller supplies no
budget is 500000. -/
theorem c9_iteration_budget :
    (∀ g : GridSize, g.rows * g.cols ≤ 100 → calculateMaxIterations g = 500000) ∧
    (∀ g : GridSize, calculateMaxIterations g ≤ 10000000) ∧
    (∀ g1 g2 : GridSize, g1.rows * g1.cols ≤ g2.rows * g2.cols →
      calculateMaxIterations g1 ≤ calculateMaxIterations g2) ∧
    (∀ (st : OrchestratorState) (s f : Point) (g : GridSize),
      findHamiltonianPathAsync st s f g none =
        sendMessage st ("findPath") (.findPathArgs s f g 500000)) := by
  refine ⟨?_, ?_, ?_, ?_⟩
  · intro g h; simp [calculateMaxIterations, h]
  · intro g; unfold calculateMaxIterations; split_ifs <;> omega
  · intro g1 g2 h; unfold calculateMaxIterations; split_ifs <;> omega
  · intro st s f g; rfl

/-- C9 witness: the default 5×8 grid gets the small-grid budget, and growing
the grid to 20×20 does not shrink the budget. -/
theorem c9_witness :
    calculateMaxIterations (GridSize.mk 5 8) = 500000 ∧
    calculateMaxIterations (GridSize.mk 5 8) ≤ calculateMaxIterations (GridSize.mk 20 20) :=
  ⟨c9_iteration_budget.1 (GridSize.mk 5 8) (by decide),
    c9_iteration_budget.2.2.1 (GridSize.mk 5 8) (GridSize.mk 20 20) (by decide)⟩

end HamiltonianRoad
